import Mathlib

/-
Verification of the lkt-lns LoRaWAN network-server bridge.

Shallow embedding conventions:
* Python `bytes` values are `List Nat`, each element a byte value.
  `struct.pack` fields are modelled with explicit `% 256` per byte; the
  theorems restrict arguments to the ranges on which `struct.pack` is
  defined (it raises out of range), and where raising decides a claim the
  embedding returns `Except`/`Option` instead.
* Python floats that occur in this program (radio frequencies, RSSI, SNR)
  are modelled as exact decimals (`Dec`): the source only compares
  frequencies through 1-decimal formatting, where the double-precision
  values of the 1-decimal literals used here format identically.
* AES-ECB, AES-CMAC and SHA-256 are abstract function parameters: no
  claim depends on their internals, only on which inputs they receive.
* Wall-clock readings (`time.time()`) are `Rat` parameters, one per
  loop iteration where the source samples the clock.
-/

namespace LktLns

/-- Little-endian byte encoding of `n` on `w` bytes (`struct.pack`
with formats such as `<H`/`<I`, for in-range `n`). -/
def toLE : Nat → Nat → List Nat
  | 0, _ => []
  | w + 1, n => n % 256 :: toLE w (n / 256)

/-- UTF-8 bytes of a string; all strings handled here are ASCII, so this
is the code-point list (models `str.encode()`). -/
def strToBytes (s : String) : List Nat := s.data.map Char.toNat

/-- Python `bytes(n)` on an `int` argument: `n` zero bytes. -/
def pyBytes (n : Nat) : List Nat := List.replicate n 0

/-- Value of a hexadecimal digit character, `none` if not a hex digit. -/
def hexDigitVal (c : Char) : Option Nat :=
  if '0' ≤ c ∧ c ≤ '9' then some (c.toNat - '0'.toNat)
  else if 'a' ≤ c ∧ c ≤ 'f' then some (c.toNat - 'a'.toNat + 10)
  else if 'A' ≤ c ∧ c ≤ 'F' then some (c.toNat - 'A'.toNat + 10)
  else none

/-- Pairs of hex digits to bytes (Python `bytes.fromhex`, which raises on
malformed input, hence `Option`). -/
def hexPairsToBytes : List Char → Option (List Nat)
  | [] => some []
  | [_] => none
  | c1 :: c2 :: rest =>
    match hexDigitVal c1, hexDigitVal c2, hexPairsToBytes rest with
    | some h, some l, some bs => some ((16 * h + l) :: bs)
    | _, _, _ => none

/-- Python `bytes.fromhex`. -/
def hexToBytes (s : String) : Option (List Nat) := hexPairsToBytes s.data

/-- One lowercase hex digit. -/
def hexChar (n : Nat) : Char := Nat.digitChar n

/-- Python `bytes.hex()`: lowercase hex string of a byte list. -/
def bytesToHex (bs : List Nat) : String :=
  ⟨bs.foldr (fun b acc => hexChar (b / 16 % 16) :: hexChar (b % 16) :: acc) []⟩

/-- Base64 alphabet. -/
def b64Alphabet : List Char :=
  "ABCDEFGHIJKLMNOPQRSTUVWXYZabcdefghijklmnopqrstuvwxyz0123456789+/".data

/-- One base64 character for a 6-bit value. -/
def b64Char (n : Nat) : Char := b64Alphabet.getD n '?'

/-- Base64 encoding of a byte list (Python `base64.b64encode(...).decode()`). -/
def b64encodeChars : List Nat → List Char
  | [] => []
  | [a] =>
    [b64Char (a / 4 % 64), b64Char (a % 4 * 16), '=', '=']
  | [a, b] =>
    [b64Char (a / 4 % 64), b64Char (a % 4 * 16 + b / 16 % 16),
     b64Char (b % 16 * 4), '=']
  | a :: b :: c :: rest =>
    b64Char (a / 4 % 64) :: b64Char (a % 4 * 16 + b / 16 % 16) ::
    b64Char (b % 16 * 4 + c / 64 % 4) :: b64Char (c % 64) ::
    b64encodeChars rest

/-- Python `base64.b64encode(bs).decode()`. -/
def b64encode (bs : List Nat) : String := ⟨b64encodeChars bs⟩

/-- Value of one base64 character, `none` if outside the alphabet. -/
def b64Val (c : Char) : Option Nat :=
  (b64Alphabet.findIdx? (· = c))

/-- Base64 decoding of canonically padded input (Python
`base64.b64decode`, which raises on bad padding, hence `Option`; the
source decoder additionally skips foreign characters, a leniency no
claim depends on). -/
def b64decodeChars : List Char → Option (List Nat)
  | [] => some []
  | [a, b, '=', '='] =>
    match b64Val a, b64Val b with
    | some va, some vb => some [va * 4 + vb / 16]
    | _, _ => none
  | [a, b, c, '='] =>
    match b64Val a, b64Val b, b64Val c with
    | some va, some vb, some vc => some [va * 4 + vb / 16, vb % 16 * 16 + vc / 4]
    | _, _, _ => none
  | a :: b :: c :: d :: rest =>
    match b64Val a, b64Val b, b64Val c, b64Val d, b64decodeChars rest with
    | some va, some vb, some vc, some vd, some bs =>
      some ((va * 4 + vb / 16) :: (vb % 16 * 16 + vc / 4) :: (vc % 4 * 64 + vd) :: bs)
    | _, _, _, _, _ => none
  | _ => none

/-- Python `base64.b64decode` on a string. -/
def b64decode (s : String) : Option (List Nat) := b64decodeChars s.data

/-- Exact decimal `mant / 10^exp`, the model of the Python floats
appearing in the radio records (all are decimal literals of at most a
few digits, whose double-precision values round-trip through the
formatting the source applies to them). -/
structure Dec where
  mant : Int
  exp : Nat
deriving DecidableEq, Repr

/-- Comparison of two exact decimals (`a < b`), by cross-multiplying
the positive powers of ten. -/
def Dec.ltb (a b : Dec) : Bool :=
  a.mant * ((10 ^ b.exp : Nat) : Int) < b.mant * ((10 ^ a.exp : Nat) : Int)

/-- Left-pad a digit string with zeros to width `w`. -/
def padZeros (s : String) (w : Nat) : String :=
  ⟨List.replicate (w - s.length) '0' ++ s.data⟩

/-- Decimal rendering of a `Dec`, matching Python/pydantic float output
for the values in this program (integral floats render with `.0`). -/
def Dec.render (d : Dec) : String :=
  let sign := if d.mant < 0 then "-" else ""
  let m := d.mant.natAbs
  if d.exp = 0 then sign ++ toString m ++ ".0"
  else
    let p := 10 ^ d.exp
    sign ++ toString (m / p) ++ "." ++ padZeros (toString (m % p)) d.exp

/-- Round `num / den` to the nearest integer, ties to even (the rounding
of Python `format(x, ".1f")` on exact decimals). -/
def roundHalfEven (num den : Nat) : Nat :=
  let q := num / den
  let r := num % den
  if 2 * r < den then q
  else if den < 2 * r then q + 1
  else if q % 2 = 0 then q else q + 1

/-- The (nonnegative) frequency of a `Dec`, in tenths of a MHz after
rounding to one decimal (models `f"{freq:.1f}"` before formatting). -/
def Dec.tenths (d : Dec) : Nat :=
  if d.exp = 0 then d.mant.toNat * 10
  else roundHalfEven d.mant.toNat (10 ^ (d.exp - 1))

/-- String of a tenths-of-MHz frequency, as `f"{freq:.1f}"` renders it. -/
def tenthsStr (t : Nat) : String := toString (t / 10) ++ "." ++ toString (t % 10)

/-- First index of `x` in `xs` (Python `list.index`, which raises when
absent, hence `Option`). -/
def pyIndex (xs : List String) (x : String) : Option Nat :=
  match xs with
  | [] => none
  | y :: ys => if y = x then some 0 else (pyIndex ys x).map (· + 1)

/-- Uplink frequency plan `packets.UPLINK_FREQUENCIES`:
strings of `915.2 + 0.2*i` for `i = 0..7`, one decimal. -/
def UPLINK_FREQUENCIES : List String :=
  (List.range 8).map (fun i => tenthsStr (9152 + 2 * i))

/-- Downlink frequency plan `packets.DOWNLINK_FREQUENCIES`:
strings of `923.3 + 0.6*i` for `i = 0..7`, one decimal. -/
def DOWNLINK_FREQUENCIES : List String :=
  (List.range 8).map (fun i => tenthsStr (9233 + 6 * i))

/-- Model of `LoRaWAN.downlink_freq` (and of the identical
`helpers.uplink_freq_to_downlink_freq`): look up the 1-decimal
formatting of the input frequency in the uplink plan and return the
downlink entry at the same index; `none` models the `ValueError` that
`list.index` raises off-plan.  The input is the frequency in tenths of
a MHz (the exact-decimal image of `f"{freq:.1f}"`); the result string
is the decimal the source's `float(...)` parses. -/
def downlink_freq (t : Nat) : Option String :=
  (pyIndex UPLINK_FREQUENCIES (tenthsStr t)).map
    (fun i => DOWNLINK_FREQUENCIES.getD i "")

/-! JSON rendering, as pydantic `model_dump_json` emits it: compact
separators, keys in field-declaration order. -/

/-- Escape one character for a JSON string (the strings in these records
contain no control characters). -/
def jsonEscapeChar (c : Char) : List Char :=
  if c = '"' then ['\\', '"']
  else if c = '\\' then ['\\', '\\']
  else [c]

/-- JSON string literal. -/
def jstr (s : String) : String :=
  "\"" ++ String.mk (s.data.foldr (fun c acc => jsonEscapeChar c ++ acc) []) ++ "\""

/-- JSON boolean literal. -/
def jbool (b : Bool) : String := if b then "true" else "false"

/-- JSON integer literal. -/
def jint (n : Int) : String := toString n

/-- JSON of an optional integer (`null` when absent). -/
def joptInt : Option Int → String
  | none => "null"
  | some n => jint n

/-- Python `str.replace(" ", "")`. -/
def removeSpaces (s : String) : String := String.mk (s.data.filter (· ≠ ' '))

/-- Model of `packets.Txpk`: the downlink radio instruction record.
Fields and their order as declared in the pydantic model. -/
structure Txpk where
  imme : Bool
  tmst : Int
  tmms : Option Int
  freq : Dec
  rfch : Int
  powe : Int
  datr : String
  modu : String
  codr : String
  ipol : Bool
  size : Int
  data : String
deriving DecidableEq, Repr

/-- `Txpk.model_dump_json()`: compact JSON with keys in declaration
order; `tmms` is not excluded, so `None` renders as `null`. -/
def txpkDumpJson (t : Txpk) : String :=
  "\x7b\"imme\":" ++ jbool t.imme ++
  ",\"tmst\":" ++ jint t.tmst ++
  ",\"tmms\":" ++ joptInt t.tmms ++
  ",\"freq\":" ++ t.freq.render ++
  ",\"rfch\":" ++ jint t.rfch ++
  ",\"powe\":" ++ jint t.powe ++
  ",\"datr\":" ++ jstr t.datr ++
  ",\"modu\":" ++ jstr t.modu ++
  ",\"codr\":" ++ jstr t.codr ++
  ",\"ipol\":" ++ jbool t.ipol ++
  ",\"size\":" ++ jint t.size ++
  ",\"data\":" ++ jstr t.data ++ "\x7d"

/-- Model of `packets.Rxpk`: the uplink radio reception record. -/
structure Rxpk where
  jver : Int
  tmst : Int
  tmms : Option Int
  chan : Int
  rfch : Int
  freq : Dec
  mid : Int
  stat : Int
  modu : String
  datr : String
  codr : String
  rssis : Dec
  lsnr : Dec
  foff : Int
  rssi : Dec
  size : Int
  data : String
deriving DecidableEq, Repr

/-- `Rxpk.model_dump_json(exclude_none=True)`: compact JSON in
declaration order, omitting `tmms` when it is `None` (the only
optional field). -/
def rxpkDumpJson (r : Rxpk) : String :=
  "\x7b\"jver\":" ++ jint r.jver ++
  ",\"tmst\":" ++ jint r.tmst ++
  (match r.tmms with
   | none => ""
   | some v => ",\"tmms\":" ++ jint v) ++
  ",\"chan\":" ++ jint r.chan ++
  ",\"rfch\":" ++ jint r.rfch ++
  ",\"freq\":" ++ r.freq.render ++
  ",\"mid\":" ++ jint r.mid ++
  ",\"stat\":" ++ jint r.stat ++
  ",\"modu\":" ++ jstr r.modu ++
  ",\"datr\":" ++ jstr r.datr ++
  ",\"codr\":" ++ jstr r.codr ++
  ",\"rssis\":" ++ r.rssis.render ++
  ",\"lsnr\":" ++ r.lsnr.render ++
  ",\"foff\":" ++ jint r.foff ++
  ",\"rssi\":" ++ r.rssi.render ++
  ",\"size\":" ++ jint r.size ++
  ",\"data\":" ++ jstr r.data ++ "\x7d"

/-- `DataRate.from_str` composed with `get_sf`/`get_bw`: `(sf, bw_hz)`
for the datarate strings of the `DataRate` enum, `none` for any other
string (`from_str` raises `ValueError`). -/
def datarate_params (s : String) : Option (Nat × Nat) :=
  if s = "SF12BW125" then some (12, 125000)
  else if s = "SF11BW125" then some (11, 125000)
  else if s = "SF10BW125" then some (10, 125000)
  else if s = "SF9BW125" then some (9, 125000)
  else if s = "SF8BW125" then some (8, 125000)
  else if s = "SF7BW125" then some (7, 125000)
  else if s = "SF8BW500" then some (8, 500000)
  else if s = "SF12BW500" then some (12, 500000)
  else if s = "SF11BW500" then some (11, 500000)
  else if s = "SF10BW500" then some (10, 500000)
  else if s = "SF9BW500" then some (9, 500000)
  else if s = "SF7BW500" then some (7, 500000)
  else none

namespace LoRaWANM

/-- The `A_i` cipher block of LoRaWAN §4.3.3.1, as both `encrypt` and
`decrypt` assemble it:
`01 00 00 00 00 || dir || DevAddr_LE || FCnt_LE(4) || 00 || i`. -/
def aiBlock (direction : Nat) (devAddrLe : List Nat) (fcnt blockNum : Nat) : List Nat :=
  [1, 0, 0, 0, 0] ++ [direction % 256] ++ devAddrLe ++ toLE 4 fcnt ++ [0] ++ [blockNum % 256]

/-- Keystream loop of `LoRaWAN.encrypt`: `while size > 0: s +=
AES(A_i)[:min(16, size)]; size -= 16`.  The `fuel` argument bounds the
iteration count structurally; `fuel = size` suffices. -/
def keystreamAux (aesk : List Nat → List Nat) (direction : Nat) (devAddrLe : List Nat)
    (fcnt : Nat) : Nat → Nat → Nat → List Nat
  | _, _, 0 => []
  | blockNum, size, fuel + 1 =>
    if size = 0 then []
    else (aesk (aiBlock direction devAddrLe fcnt blockNum)).take (min 16 size) ++
         keystreamAux aesk direction devAddrLe fcnt (blockNum + 1) (size - 16) fuel

/-- `lorawan.LoRaWAN.encrypt`: XOR the data with the AES-ECB keystream
over the `A_i` blocks.  `aes key block` abstracts
`AES.new(key, AES.MODE_ECB).encrypt(block)` (a 16-byte permutation). -/
def encrypt (aes : List Nat → List Nat → List Nat)
    (application_session_key dev_addr : List Nat)
    (fcnt direction : Nat) (data : List Nat) : List Nat :=
  let s := keystreamAux (aes application_session_key) direction dev_addr.reverse fcnt
             1 data.length data.length
  data.zipWith (· ^^^ ·) s

/-- Keystream loop of `LoRaWAN.decrypt`: full 16-byte blocks are
appended `while len(s) < size`, so the iteration count is
`⌈size / 16⌉` (AES blocks are 16 bytes). -/
def decKeystreamAux (aesk : List Nat → List Nat) (direction : Nat) (devAddrLe : List Nat)
    (f_cnt : Nat) : Nat → Nat → List Nat
  | _, 0 => []
  | i, fuel + 1 =>
    aesk (aiBlock direction devAddrLe f_cnt i) ++
    decKeystreamAux aesk direction devAddrLe f_cnt (i + 1) fuel

/-- `lorawan.LoRaWAN.decrypt`.  The source receives the device address
as a big-endian hex string and computes `bytes.fromhex(dev_addr)[::-1]`;
here `dev_addr_be` is that string's byte value, reversed below. -/
def decrypt (aes : List Nat → List Nat → List Nat)
    (payload app_session_key : List Nat) (dev_addr_be : List Nat)
    (f_cnt direction : Nat) : List Nat :=
  let s := decKeystreamAux (aes app_session_key) direction dev_addr_be.reverse f_cnt
             1 ((payload.length + 15) / 16)
  payload.zipWith (· ^^^ ·) s

/-- The `B0` MIC block of LoRaWAN §4.4:
`49 00 00 00 00 || dir || DevAddr_LE || FCnt_LE(4) || 00 || len(msg)`. -/
def b0Block (direction : Nat) (devAddrLe : List Nat) (fcnt msgLen : Nat) : List Nat :=
  [0x49, 0, 0, 0, 0] ++ [direction % 256] ++ devAddrLe ++ toLE 4 fcnt ++ [0] ++ [msgLen % 256]

/-- `lorawan.LoRaWAN.mic`: 4-byte truncation of AES-CMAC over
`B0 || msg`.  `cmac key msg` abstracts the 16-byte CMAC digest. -/
def mic (cmac : List Nat → List Nat → List Nat)
    (network_session_key dev_addr : List Nat)
    (fcnt direction : Nat) (msg : List Nat) : List Nat :=
  (cmac network_session_key (b0Block direction dev_addr.reverse fcnt msg.length ++ msg)).take 4

/-- PHYPayload assembly of `lorawan.LoRaWAN.build_downlink` before the
base64 step.  `struct.pack("<H", fcnt)` raises for `fcnt ≥ 2^16` and
`struct.pack("<B", fport)` for `fport ≥ 2^8`, modelled as `error`. -/
def build_downlink_phy (aes cmac : List Nat → List Nat → List Nat)
    (dev_addr nwk_session_key app_session_key payload : List Nat)
    (fcnt fport : Nat) (confirmed : Bool) : Except Unit (List Nat) :=
  let mhdr : List Nat := if confirmed then [0xA0] else [0x60]
  if fcnt < 2 ^ 16 then
    let fhdr := dev_addr.reverse ++ [0] ++ toLE 2 fcnt
    let frm_payload := encrypt aes app_session_key dev_addr fcnt 1 payload
    if fport < 2 ^ 8 then
      let mac_payload := fhdr ++ [fport] ++ frm_payload
      let micv := mic cmac nwk_session_key dev_addr fcnt 1 (mhdr ++ mac_payload)
      Except.ok (mhdr ++ mac_payload ++ micv)
    else Except.error ()
  else Except.error ()

/-- `lorawan.LoRaWAN.build_downlink`: `(base64(PHY), len(PHY))`.  The
hex-string key and address arguments of the source are modelled by
their byte values. -/
def build_downlink (aes cmac : List Nat → List Nat → List Nat)
    (dev_addr nwk_session_key app_session_key payload : List Nat)
    (fcnt fport : Nat) (confirmed : Bool) : Except Unit (String × Nat) :=
  (build_downlink_phy aes cmac dev_addr nwk_session_key app_session_key payload
    fcnt fport confirmed).map (fun phy => (b64encode phy, phy.length))

end LoRaWANM

namespace Helpers

/-- Keystream loop of `helpers.lorawan_encrypt` (textually duplicated
from `lorawan.LoRaWAN.encrypt` in the source). -/
def keystreamAux (aesk : List Nat → List Nat) (direction : Nat) (devAddrLe : List Nat)
    (fcnt : Nat) : Nat → Nat → Nat → List Nat
  | _, _, 0 => []
  | blockNum, size, fuel + 1 =>
    if size = 0 then []
    else (aesk (LoRaWANM.aiBlock direction devAddrLe fcnt blockNum)).take (min 16 size) ++
         keystreamAux aesk direction devAddrLe fcnt (blockNum + 1) (size - 16) fuel

/-- `helpers.lorawan_encrypt`. -/
def lorawan_encrypt (aes : List Nat → List Nat → List Nat)
    (application_session_key dev_addr : List Nat)
    (fcnt direction : Nat) (data : List Nat) : List Nat :=
  let s := keystreamAux (aes application_session_key) direction dev_addr.reverse fcnt
             1 data.length data.length
  data.zipWith (· ^^^ ·) s

/-- `helpers.lorawan_mic`. -/
def lorawan_mic (cmac : List Nat → List Nat → List Nat)
    (network_session_key dev_addr : List Nat)
    (fcnt direction : Nat) (msg : List Nat) : List Nat :=
  (cmac network_session_key
    (LoRaWANM.b0Block direction dev_addr.reverse fcnt msg.length ++ msg)).take 4

/-- `helpers.build_lorawan_downlink`: same assembly as
`LoRaWAN.build_downlink` but returning only the base64 string. -/
def build_lorawan_downlink (aes cmac : List Nat → List Nat → List Nat)
    (dev_addr nwk_session_key app_session_key payload : List Nat)
    (fcnt fport : Nat) (confirmed : Bool) : Except Unit String :=
  let mhdr : List Nat := if confirmed then [0xA0] else [0x60]
  if fcnt < 2 ^ 16 then
    let fhdr := dev_addr.reverse ++ [0] ++ toLE 2 fcnt
    let frm_payload := lorawan_encrypt aes app_session_key dev_addr fcnt 1 payload
    if fport < 2 ^ 8 then
      let mac_payload := fhdr ++ [fport] ++ frm_payload
      let micv := lorawan_mic cmac nwk_session_key dev_addr fcnt 1 (mhdr ++ mac_payload)
      Except.ok (b64encode (mhdr ++ mac_payload ++ micv))
    else Except.error ()
  else Except.error ()

/-- `helpers.generate_header`:
`version + token + struct.pack("!B", pkt_type) + bytes.fromhex(gateway_id)`. -/
def generate_header (version token : List Nat) (pkt_type : Nat) (gateway_id : String) :
    Option (List Nat) :=
  if pkt_type < 2 ^ 8 then
    (hexToBytes gateway_id).map (fun gw => version ++ token ++ [pkt_type] ++ gw)
  else none

/-- `helpers.build_pull_resp`: fixed version `0x02` and type `0x03`
header, then the Txpk's compact JSON with spaces removed. -/
def build_pull_resp (token : List Nat) (gateway_id : String) (downlink : Txpk) :
    Option (List Nat) :=
  (hexToBytes gateway_id).map (fun gw =>
    [2] ++ token ++ [3] ++ gw ++ strToBytes (removeSpaces (txpkDumpJson downlink)))

end Helpers

/-- Model of `lkt_utils.devices.EverynetDevice` (the fields this
repository reads). -/
structure EverynetDevice where
  dev_eui : Option String
  app_eui : Option String
  dev_addr : Option String
  appskey : Option String
  nwkskey : Option String
deriving DecidableEq, Repr

/-- A device cache: the `dict[str, EverynetDevice]` mapping. -/
def DeviceCache : Type := List (String × EverynetDevice)

instance : DecidableEq DeviceCache := by unfold DeviceCache; infer_instance

namespace Upstream

/-- `upstream.update_devices`: returns the directory query's result, or
an empty mapping when the query raises (the `except` branch returns
`{}`). -/
def update_devices (result : Except Unit DeviceCache) : DeviceCache :=
  match result with
  | Except.ok devs => devs
  | Except.error _ => []

/-- The cache after the refresh step `devices = update_devices(...)` in
`upstream_thread` (upstream.py:199-201): the previous cache is
overwritten unconditionally by whatever `update_devices` returns. -/
def refreshed_cache (_prev : DeviceCache) (result : Except Unit DeviceCache) : DeviceCache :=
  update_devices result

/-- Result of `upstream.parse_uplink` (the semantic payload type is a
parameter; JSON model validation is `validate`, whose failures the
source turns into `None`). -/
structure ParsedFrame (α : Type) where
  version : List Nat
  token : List Nat
  ptype : Nat
  gateway_id : String
  payload : Option α

/-- `upstream.parse_uplink`.  Faithful points: `version` is
`bytes(data[0])`, a zero-filled bytes object of length `data[0]`;
frames shorter than 4 bytes raise `IndexError` and unknown packet
types raise `ValueError`, both modelled as `error`. -/
def parse_uplink {α : Type} (validate : List Nat → Option α) (data : List Nat) :
    Except Unit (ParsedFrame α) :=
  if data.length < 4 then Except.error ()
  else if 5 < data.getD 3 0 then Except.error ()
  else Except.ok
    { version := pyBytes (data.getD 0 0)
      token := (data.drop 1).take 2
      ptype := data.getD 3 0
      gateway_id := bytesToHex ((data.drop 4).take 8)
      payload := if 12 < data.length then validate (data.drop 12) else none }

/-- The platform uplink envelope, flattened to the fields
`upstream.rxpk2everynet` assigns. -/
structure EveryNetUplinkMessage where
  type_message : String
  gateway : String
  application : String
  device : String
  device_addr : String
  time : Rat
  packet_id : String
  packet_hash : String
  payload : String
  port : Nat
  rx_time : Int
  duplicate : Bool
  counter_up : Nat
  encrypted_payload : String
  freq : Dec
  radio_size : Int
  coderate : String
  bandwidth : Nat
  spreading : Nat
  modulation_type : String
  snr : Dec
  rssi : Dec
  channel : Int
  chain : Int
deriving DecidableEq, Repr

/-- `upstream.rxpk2everynet`.  The impure inputs are explicit: `now`
models `datetime.now().timestamp()`, `rand_hash` models
`random.randbytes(16).hex()`, and `sha256hex` abstracts the SHA-256
hex digest.  `DataRate.from_str` raises on an unknown datarate string,
modelled as `error`. -/
def rxpk2everynet (sha256hex : String → String) (now : Rat) (rand_hash : String)
    (rxpk : Rxpk) (gateway_id : String) (port counter : Nat)
    (device : EverynetDevice) (payload : String) :
    Except Unit EveryNetUplinkMessage :=
  match datarate_params rxpk.datr with
  | none => Except.error ()
  | some (sf, bw) => Except.ok
    { type_message := "uplink"
      gateway := gateway_id
      application := device.app_eui.getD ""
      device := device.dev_eui.getD ""
      device_addr := device.dev_addr.getD ""
      time := now
      packet_id := (sha256hex (rxpkDumpJson rxpk)).take 16
      packet_hash := rand_hash
      payload := payload
      port := port
      rx_time := rxpk.tmst
      duplicate := false
      counter_up := counter
      encrypted_payload := rxpk.data
      freq := rxpk.freq
      radio_size := rxpk.size
      coderate := rxpk.codr
      bandwidth := bw
      spreading := sf
      modulation_type := rxpk.modu
      snr := rxpk.lsnr
      rssi := rxpk.rssi
      channel := rxpk.chan
      chain := rxpk.rfch }

/-- What one `rxpk` does to the running uplink loop. -/
inductive UpOutcome where
  | dropped
  | published (msg : EveryNetUplinkMessage)
  | crashed
deriving DecidableEq, Repr

/-- The per-`rxpk` body of `upstream_thread` (upstream.py:228-305),
after the Semtech parse, the `PUSH_DATA` filter and the `PUSH_ACK`.
`crashed` marks an exception raised outside any `try`, which escapes
the `while True` loop and terminates the thread: an off-plan
frequency (`ValueError` from `list.index`), undecodable base64
(`binascii.Error`), a PHY shorter than 8 bytes (`struct.error` on
`phy_raw[6:8]`) or shorter than 9 (`IndexError` on `phy_raw[8]`), a
malformed session key (`AES.new` `ValueError`), or an unknown
datarate string (`ValueError` in `rxpk2everynet`).  `fetched` models
the result of the on-miss directory query. -/
def upstream_handle_rxpk (aes : List Nat → List Nat → List Nat)
    (sha256hex : String → String) (now : Rat) (rand_hash : String)
    (devices fetched : DeviceCache) (gw_id : String) (fcnt : Nat) (rx : Rxpk) :
    UpOutcome :=
  if rx.freq.ltb ⟨9035, 1⟩ then
    match b64decode rx.data with
    | none => UpOutcome.crashed
    | some raw => if raw.length < 4 then UpOutcome.dropped else UpOutcome.dropped
  else
    match downlink_freq rx.freq.tenths with
    | none => UpOutcome.crashed
    | some _ =>
      match b64decode rx.data with
      | none => UpOutcome.crashed
      | some phy_raw =>
        if phy_raw.length < 8 then UpOutcome.crashed
        else if phy_raw.length < 9 then UpOutcome.crashed
        else
          let dev_addr_be := ((phy_raw.drop 1).take 4).reverse
          let uplink_dev_addr_hex := bytesToHex dev_addr_be
          let uplink_fcnt := phy_raw.getD 6 0 + 256 * phy_raw.getD 7 0
          let uplink_fport := phy_raw.getD 8 0
          let frm_payload_encrypted := (phy_raw.take (phy_raw.length - 4)).drop 9
          if uplink_fport = 0 ∨ frm_payload_encrypted = [] then UpOutcome.dropped
          else
            let deviceQ :=
              match List.lookup uplink_dev_addr_hex devices with
              | some d => some d
              | none => List.lookup uplink_dev_addr_hex fetched
            match deviceQ with
            | none => UpOutcome.dropped
            | some device =>
              match hexToBytes (device.appskey.getD "") with
              | none => UpOutcome.crashed
              | some key =>
                if key.length = 16 ∨ key.length = 24 ∨ key.length = 32 then
                  let decrypted := LoRaWANM.decrypt aes frm_payload_encrypted key
                    dev_addr_be uplink_fcnt 0
                  match rxpk2everynet sha256hex now rand_hash rx gw_id uplink_fport
                    (fcnt + 2) device (b64encode decrypted) with
                  | Except.error _ => UpOutcome.crashed
                  | Except.ok msg => UpOutcome.published msg
                else UpOutcome.crashed

end Upstream

namespace Downstream

/-- Result of one `PULL_DATA` drain cycle in `downstream_task`. -/
inductive DrainResult where
  | finished (q : List (Txpk × Rat))
  | crashed (q : List (Txpk × Rat))
  | stalled (q : List (Txpk × Rat))
deriving DecidableEq, Repr

/-- The inner `while ptype == PKT_PULL_DATA and not queue.empty()` loop
of `downstream_task` (downstream.py:69-90).  `times` are the successive
`time.time()` readings, one per iteration (it also serves as fuel:
`stalled` marks the modelling cut-off, the source loop simply keeps
iterating).  Each iteration dequeues `(downlink, tmms)` and computes
`delay = tmms - now`: `delay > 1` re-enqueues at the tail and
*continues* the loop; `delay < 0` drops the entry and continues; an
in-window entry reaches `json.dumps(downlink, indent=2)` inside
`logging.info(Panel(...))`, which raises `TypeError` (a pydantic
`Txpk` is not JSON-serializable) before any `sendto`, so the thread
dies: `crashed`. -/
def drain : List Rat → List (Txpk × Rat) → DrainResult
  | _, [] => DrainResult.finished []
  | [], q => DrainResult.stalled q
  | t :: ts, (d, tmms) :: q' =>
    if 1 < tmms - t then drain ts (q' ++ [(d, tmms)])
    else if tmms - t < 0 then drain ts q'
    else DrainResult.crashed q'

end Downstream

/-! Concrete instances of the abstract cryptographic and impure inputs,
used to evaluate the model at specific inputs. -/

/-- AES-ECB stand-in for concrete evaluations: a constant 16-byte block
(the claims never depend on AES internals). -/
def aes0 : List Nat → List Nat → List Nat := fun _ _ => List.replicate 16 0

/-- CMAC stand-in for concrete evaluations: a constant 16-byte digest. -/
def cmac0 : List Nat → List Nat → List Nat := fun _ _ => List.replicate 16 7

/-- SHA-256 hex-digest stand-in for concrete evaluations. -/
def sha0 : String → String := fun _ => "9d8e0cce8a3e9a1f4b62c3d5e6f70819aabbccddeeff00112233445566778899"

/-- A concrete downlink instruction (the `Txpk` defaults of packets.py). -/
def txpk0 : Txpk :=
  { imme := false, tmst := 0, tmms := none, freq := ⟨9162, 1⟩, rfch := 0, powe := 12
    datr := "SF10BW500", modu := "LORA", codr := "4/5", ipol := false, size := 0
    data := "" }

/-- A concrete uplink reception on plan frequency 915.2 MHz whose
`data` is the empty base64 string: the PHYPayload decodes to 0 bytes. -/
def rx0 : Rxpk :=
  { jver := 1, tmst := 1000, tmms := none, chan := 0, rfch := 0, freq := ⟨9152, 1⟩
    mid := 0, stat := 1, modu := "LORA", datr := "SF10BW500", codr := "4/5"
    rssis := ⟨-35, 0⟩, lsnr := ⟨95, 1⟩, foff := 0, rssi := ⟨-35, 0⟩, size := 0
    data := "" }

/-- A concrete device-directory entry. -/
def dev0 : EverynetDevice :=
  { dev_eui := some "70b3d57ed0000000", app_eui := some "70b3d57ed0000001"
    dev_addr := some "26011bda", appskey := some "2b7e151628aed2a6abf7158809cf4f3c"
    nwkskey := some "2b7e151628aed2a6abf7158809cf4f3c" }

end LktLns

namespace LktLns

/-! Helper lemmas. -/

/-- When every AES output block has 16 bytes, the encrypt keystream has
exactly the requested length (the fuel `size` is enough). -/
theorem keystreamAux_length (aesk : List Nat → List Nat)
    (haes : ∀ b, (aesk b).length = 16) (direction : Nat) (devAddrLe : List Nat)
    (fcnt : Nat) :
    ∀ fuel blockNum size, size ≤ 16 * fuel →
      (LoRaWANM.keystreamAux aesk direction devAddrLe fcnt blockNum size fuel).length
        = size := by
  intro fuel
  induction fuel with
  | zero =>
    intro bn size h
    have hz : size = 0 := by omega
    subst hz
    rfl
  | succ n ih =>
    intro bn size h
    by_cases hs : size = 0
    · subst hs; simp [LoRaWANM.keystreamAux]
    · simp only [LoRaWANM.keystreamAux, if_neg hs, List.length_append,
        List.length_take, haes]
      rw [ih (bn + 1) (size - 16) (by omega)]
      omega

/-- The ciphertext of `LoRaWAN.encrypt` has the plaintext's length. -/
theorem lorawan_encrypt_length (aes : List Nat → List Nat → List Nat)
    (haes : ∀ k b, (aes k b).length = 16) (key dev_addr data : List Nat)
    (fcnt direction : Nat) :
    (LoRaWANM.encrypt aes key dev_addr fcnt direction data).length = data.length := by
  simp only [LoRaWANM.encrypt, List.length_zipWith]
  rw [keystreamAux_length (aes key) (haes key) direction dev_addr.reverse fcnt
    data.length 1 data.length (by omega)]
  omega

/-- XORing twice with the same (long enough) keystream is the identity. -/
theorem zipWith_xor_cancel (l : List Nat) :
    ∀ s : List Nat, l.length ≤ s.length →
      (l.zipWith (· ^^^ ·) s).zipWith (· ^^^ ·) s = l := by
  induction l with
  | nil => intro s _; simp
  | cons a l ih =>
    intro s h
    cases s with
    | nil => simp at h
    | cons b s' =>
      simp only [List.zipWith_cons_cons]
      rw [ih s' (by simpa using h)]
      rw [Nat.xor_assoc, Nat.xor_self, Nat.xor_zero]

/-- The two textually duplicated keystream loops compute the same list. -/
theorem helpers_keystreamAux_eq (aesk : List Nat → List Nat) (direction : Nat)
    (devAddrLe : List Nat) (fcnt : Nat) :
    ∀ fuel blockNum size,
      Helpers.keystreamAux aesk direction devAddrLe fcnt blockNum size fuel =
        LoRaWANM.keystreamAux aesk direction devAddrLe fcnt blockNum size fuel := by
  intro fuel
  induction fuel with
  | zero => intro bn size; rfl
  | succ n ih =>
    intro bn size
    by_cases hs : size = 0 <;>
      simp [Helpers.keystreamAux, LoRaWANM.keystreamAux, hs, ih]

/-- `helpers.lorawan_encrypt` agrees with `LoRaWAN.encrypt`. -/
theorem helpers_encrypt_eq (aes : List Nat → List Nat → List Nat)
    (key dev_addr data : List Nat) (fcnt direction : Nat) :
    Helpers.lorawan_encrypt aes key dev_addr fcnt direction data =
      LoRaWANM.encrypt aes key dev_addr fcnt direction data := by
  unfold Helpers.lorawan_encrypt LoRaWANM.encrypt
  rw [helpers_keystreamAux_eq]

/-- `helpers.build_lorawan_downlink` is the string component of
`LoRaWAN.build_downlink`. -/
theorem helpers_build_eq (aes cmac : List Nat → List Nat → List Nat)
    (dev_addr nwk app payload : List Nat) (fcnt fport : Nat) (confirmed : Bool) :
    Helpers.build_lorawan_downlink aes cmac dev_addr nwk app payload fcnt fport confirmed
      = (LoRaWANM.build_downlink aes cmac dev_addr nwk app payload fcnt fport
          confirmed).map Prod.fst := by
  unfold Helpers.build_lorawan_downlink LoRaWANM.build_downlink LoRaWANM.build_downlink_phy
  rw [helpers_encrypt_eq]
  split_ifs <;> simp [Helpers.lorawan_mic, LoRaWANM.mic, Except.map]

/-- Python `list.index` raises exactly on missing elements. -/
theorem pyIndex_eq_none_of_not_mem (xs : List String) (x : String) (h : x ∉ xs) :
    pyIndex xs x = none := by
  induction xs with
  | nil => rfl
  | cons y ys ih =>
    have h1 : ¬ y = x := fun hy => h (by simp [hy])
    have h2 : x ∉ ys := fun hm => h (List.mem_cons_of_mem _ hm)
    simp [pyIndex, h1, ih h2]

/-! Claim theorems. -/

/-- C1: the Semtech round-trip fails on the code.  For the header built
by `generate_header` with version byte `0x02`, token `ab cd`, type
`PUSH_DATA` and gateway `0102030405060708` followed by a body,
`parse_uplink` echoes the token, type and gateway id but returns
`bytes(data[0]) = b"\x00\x00"` — a zero-filled 2-byte string, not the
version byte 2 — and a (failed) model validation of the body, not the
body itself. -/
theorem c1_parse_uplink_version_bug :
    Helpers.generate_header [2] [171, 205] 0 "0102030405060708" =
      some [2, 171, 205, 0, 1, 2, 3, 4, 5, 6, 7, 8] ∧
    (Upstream.parse_uplink (fun _ => (none : Option Unit))
        ([2, 171, 205, 0, 1, 2, 3, 4, 5, 6, 7, 8] ++
          strToBytes "\x7b\"rxpk\":[]\x7d")).map
        (fun p => (p.version, p.token, p.ptype, p.gateway_id, p.payload)) =
      Except.ok ([0, 0], [171, 205], 0, "0102030405060708", none) ∧
    ([0, 0] : List Nat) ≠ [2] := by
  refine ⟨by decide, by rfl, by decide⟩

/-- C2: a PUSH_DATA whose rxpk carries an empty PHYPayload (0 bytes,
hence shorter than 12) is not dropped: `struct.unpack("<H",
phy_raw[6:8])` raises `struct.error` outside any `try`, terminating
the uplink loop instead of continuing. -/
theorem c2_short_phy_crashes_uplink :
    Upstream.upstream_handle_rxpk aes0 sha0 0 "" [] [] "0102030405060708" 0 rx0 =
      Upstream.UpOutcome.crashed ∧
    Upstream.UpOutcome.crashed ≠ Upstream.UpOutcome.dropped := by
  refine ⟨by decide, by decide⟩

/-- C3 counterexample: starting from a nonempty device cache, a failed
directory refresh does not retain the previous mapping — the cache is
replaced by `update_devices`'s empty dict. -/
theorem c3_refresh_failure_loses_cache :
    Upstream.refreshed_cache [("26011bda", dev0)] (Except.error ()) ≠
      [("26011bda", dev0)] := by
  decide

/-- C3 amended: after `devices = update_devices(...)`, the cache is the
refresh result on success and the empty mapping on failure; the
previous cache is discarded in both cases. -/
theorem c3_amended_refresh_replaces_cache (prev fresh : DeviceCache) :
    Upstream.refreshed_cache prev (Except.ok fresh) = fresh ∧
    Upstream.refreshed_cache prev (Except.error ()) = [] :=
  ⟨rfl, rfl⟩

set_option maxRecDepth 8000 in
/-- C4: the PULL_RESP frame has the correct 12-byte header (version 2,
type 3, the given token and gateway id), but its JSON body is the flat
`Txpk` serialization — its first top-level key is `imme` and it is not
wrapped in a single `txpk` key as claimed. -/
theorem c4_pull_resp_body_not_wrapped :
    Helpers.build_pull_resp [171, 205] "0102030405060708" txpk0 =
      some ([2, 171, 205, 3, 1, 2, 3, 4, 5, 6, 7, 8] ++
        strToBytes "\x7b\"imme\":false,\"tmst\":0,\"tmms\":null,\"freq\":916.2,\"rfch\":0,\"powe\":12,\"datr\":\"SF10BW500\",\"modu\":\"LORA\",\"codr\":\"4/5\",\"ipol\":false,\"size\":0,\"data\":\"\"\x7d") ∧
    "\x7b\"txpk\"".data.isPrefixOf (removeSpaces (txpkDumpJson txpk0)).data = false := by
  refine ⟨by rfl, by rfl⟩

/-- C5 counterexample: at `fcnt = 2^16` no PHYPayload is produced at
all — `struct.pack("<H", fcnt)` raises instead of truncating to the
low 16 bits. -/
theorem c5_large_fcnt_raises :
    LoRaWANM.build_downlink aes0 cmac0 [1, 2, 3, 4] (List.replicate 16 0)
      (List.replicate 16 0) [5, 6] 65536 1 false = Except.error () := by
  rfl

/-- C5 amended: for `fcnt < 2^16` (and an in-range port) the PHYPayload
holds `fcnt`'s 16-bit little-endian value (its low 16 bits) in the
FHDR, while the keystream blocks and the MIC B0 block are built from
the untruncated `fcnt`; for `fcnt ≥ 2^16` `build_downlink` raises. -/
theorem c5_amended_fcnt_low16 (aes cmac : List Nat → List Nat → List Nat)
    (dev_addr nwk app payload : List Nat) (fcnt fport : Nat) (confirmed : Bool) :
    (fcnt < 2 ^ 16 → fport < 2 ^ 8 →
      LoRaWANM.build_downlink_phy aes cmac dev_addr nwk app payload fcnt fport confirmed
        = Except.ok ((if confirmed then [0xA0] else [0x60]) ++ dev_addr.reverse ++
            [0] ++ toLE 2 (fcnt % 2 ^ 16) ++ [fport] ++
            LoRaWANM.encrypt aes app dev_addr fcnt 1 payload ++
            LoRaWANM.mic cmac nwk dev_addr fcnt 1
              ((if confirmed then [0xA0] else [0x60]) ++ dev_addr.reverse ++ [0] ++
               toLE 2 (fcnt % 2 ^ 16) ++ [fport] ++
               LoRaWANM.encrypt aes app dev_addr fcnt 1 payload))) ∧
    (2 ^ 16 ≤ fcnt →
      LoRaWANM.build_downlink_phy aes cmac dev_addr nwk app payload fcnt fport confirmed
        = Except.error ()) := by
  constructor
  · intro h1 h2
    have hmod : fcnt % 2 ^ 16 = fcnt := Nat.mod_eq_of_lt h1
    simp only [LoRaWANM.build_downlink_phy]
    rw [if_pos h1, if_pos h2, hmod]
    simp [List.append_assoc]
  · intro h
    simp only [LoRaWANM.build_downlink_phy]
    rw [if_neg (by omega : ¬ fcnt < 2 ^ 16)]

/-- C5 witness: the amended statement evaluated at `fcnt = 3`,
`fport = 2`, a 2-byte payload and the concrete cipher stand-ins. -/
theorem c5_amended_fcnt_low16_witness :
    LoRaWANM.build_downlink_phy aes0 cmac0 [1, 2, 3, 4] (List.replicate 16 0)
      (List.replicate 16 0) [5, 6] 3 2 false =
      Except.ok [0x60, 4, 3, 2, 1, 0, 3, 0, 2, 5, 6, 7, 7, 7, 7] := by
  have h := (c5_amended_fcnt_low16 aes0 cmac0 [1, 2, 3, 4] (List.replicate 16 0)
    (List.replicate 16 0) [5, 6] 3 2 false).1 (by decide) (by decide)
  rw [h]
  rfl

/-- C6 counterexample: the claim's second concrete example is false on
the code — 916.4 MHz sits at index 6 of the uplink plan, so its
downlink frequency is 926.9 MHz, not 924.5. -/
theorem c6_downlink_of_9164_mismatch :
    downlink_freq 9164 = some "926.9" ∧ ("926.9" : String) ≠ "924.5" := by
  refine ⟨by decide, by decide⟩

/-- C6 amended: every uplink-plan frequency `915.2 + 0.2*i` maps to the
downlink frequency `923.3 + 0.6*i` at the same index; in particular
`downlink_of(915.2) = 923.3` and `downlink_of(916.4) = 926.9`; any
input whose 1-decimal formatting is off-plan fails explicitly
(`list.index` raises `ValueError`). -/
theorem c6_amended_frequency_mapping :
    (∀ i, i < 8 → downlink_freq (9152 + 2 * i) = some (tenthsStr (9233 + 6 * i))) ∧
    downlink_freq 9152 = some "923.3" ∧
    downlink_freq 9164 = some "926.9" ∧
    (∀ t, tenthsStr t ∉ UPLINK_FREQUENCIES → downlink_freq t = none) := by
  refine ⟨by decide, by decide, by decide, ?_⟩
  intro t ht
  unfold downlink_freq
  rw [pyIndex_eq_none_of_not_mem _ _ ht]
  rfl

/-- C6 witness: the amended mapping at index 0 and the explicit failure
at the off-plan input 900.0 MHz. -/
theorem c6_amended_frequency_mapping_witness :
    downlink_freq (9152 + 2 * 0) = some (tenthsStr (9233 + 6 * 0)) ∧
    downlink_freq 9000 = none :=
  ⟨c6_amended_frequency_mapping.1 0 (by decide),
   c6_amended_frequency_mapping.2.2.2 9000 (by decide)⟩

/-- C7: a due entry (`0 ≤ deadline - now ≤ 1 s`) does not produce a
PULL_RESP — the drain reaches `json.dumps` on a pydantic `Txpk` inside
the logging call, which raises `TypeError` before `sendto` and kills
the downstream thread.  Second conjunct: a head entry more than 1 s in
the future is re-enqueued at the tail and the loop *continues* to the
next entry (here reaching the due entry behind it) instead of stopping
the drain cycle. -/
theorem c7_due_entry_crashes_downstream :
    Downstream.drain [0] [(txpk0, 0)] = Downstream.DrainResult.crashed [] ∧
    Downstream.drain [0, 0] [(txpk0, 5), (txpk0, 1)] =
      Downstream.DrainResult.crashed [(txpk0, 5)] := by
  refine ⟨?_, ?_⟩ <;> norm_num [Downstream.drain]

/-- C8: applying the LoRaWAN payload cipher twice with the same key,
device address, frame counter and direction returns the plaintext, and
the ciphertext length equals the plaintext length, for every input on
which the source's `encrypt` is defined (16-byte AES blocks, in-range
direction and counter). -/
theorem c8_encrypt_symmetry (aes : List Nat → List Nat → List Nat)
    (key dev_addr data : List Nat) (fcnt direction : Nat)
    (haes : ∀ k b, (aes k b).length = 16)
    (_hkey : key.length = 16) (_haddr : dev_addr.length = 4)
    (_hfcnt : fcnt < 2 ^ 32) (_hdir : direction < 256) :
    LoRaWANM.encrypt aes key dev_addr fcnt direction
        (LoRaWANM.encrypt aes key dev_addr fcnt direction data) = data ∧
    (LoRaWANM.encrypt aes key dev_addr fcnt direction data).length = data.length := by
  have hlen := lorawan_encrypt_length aes haes key dev_addr data fcnt direction
  refine ⟨?_, hlen⟩
  have hks := keystreamAux_length (aes key) (haes key) direction dev_addr.reverse fcnt
    data.length 1 data.length (by omega)
  conv_lhs => rw [LoRaWANM.encrypt]
  rw [hlen]
  conv_lhs => rw [LoRaWANM.encrypt]
  exact zipWith_xor_cancel data _ (le_of_eq hks.symm)

/-- C8 witness: the symmetry at a concrete 16-byte key, 4-byte address
and 3-byte payload with the constant-block AES stand-in. -/
theorem c8_encrypt_symmetry_witness :
    LoRaWANM.encrypt aes0 (List.replicate 16 0) [1, 2, 3, 4] 1 1
        (LoRaWANM.encrypt aes0 (List.replicate 16 0) [1, 2, 3, 4] 1 1 [9, 9, 9]) =
      [9, 9, 9] ∧
    (LoRaWANM.encrypt aes0 (List.replicate 16 0) [1, 2, 3, 4] 1 1 [9, 9, 9]).length =
      ([9, 9, 9] : List Nat).length :=
  c8_encrypt_symmetry aes0 (List.replicate 16 0) [1, 2, 3, 4] [9, 9, 9] 1 1
    (fun _ _ => by simp [aes0]) (by simp) (by decide) (by decide) (by decide)

/-- C9: the `packet_id` of a published uplink envelope is the first 16
hex characters of SHA-256 over the Rxpk's canonical JSON, so it is a
function of the Rxpk alone: two envelope constructions from the same
Rxpk agree on `packet_id` whatever the wall clock, random hash,
gateway, port, counter, device and payload. -/
theorem c9_packet_id_deterministic (sha256hex : String → String)
    (now1 now2 : Rat) (rand1 rand2 gw1 gw2 pay1 pay2 : String)
    (port1 port2 cnt1 cnt2 : Nat) (dev1 dev2 : EverynetDevice) (rxpk : Rxpk)
    (hdatr : (datarate_params rxpk.datr).isSome = true) :
    (Upstream.rxpk2everynet sha256hex now1 rand1 rxpk gw1 port1 cnt1 dev1 pay1).map
        (fun m => m.packet_id) =
      Except.ok ((sha256hex (rxpkDumpJson rxpk)).take 16) ∧
    (Upstream.rxpk2everynet sha256hex now1 rand1 rxpk gw1 port1 cnt1 dev1 pay1).map
        (fun m => m.packet_id) =
      (Upstream.rxpk2everynet sha256hex now2 rand2 rxpk gw2 port2 cnt2 dev2 pay2).map
        (fun m => m.packet_id) := by
  obtain ⟨p, hp⟩ := Option.isSome_iff_exists.1 hdatr
  obtain ⟨sf, bw⟩ := p
  constructor <;> simp [Upstream.rxpk2everynet, hp, Except.map]

/-- C9 witness: packet-id determinism evaluated at a concrete Rxpk with
two different clocks, hashes, gateways, ports, counters, devices and
payloads. -/
theorem c9_packet_id_deterministic_witness :
    (Upstream.rxpk2everynet sha0 0 "r1" rx0 "g1" 1 3 dev0 "p1").map
        (fun m => m.packet_id) =
      Except.ok ((sha0 (rxpkDumpJson rx0)).take 16) ∧
    (Upstream.rxpk2everynet sha0 0 "r1" rx0 "g1" 1 3 dev0 "p1").map
        (fun m => m.packet_id) =
      (Upstream.rxpk2everynet sha0 1 "r2" rx0 "g2" 2 4 dev0 "p2").map
        (fun m => m.packet_id) :=
  c9_packet_id_deterministic sha0 0 1 "r1" "r2" "g1" "g2" "p1" "p2" 1 2 3 4 dev0 dev0
    rx0 (by decide)

/-- C10: the duplicated implementations agree on all inputs —
`helpers.lorawan_encrypt` equals `LoRaWAN.encrypt`,
`helpers.lorawan_mic` equals `LoRaWAN.mic`, and
`helpers.build_lorawan_downlink` is exactly the base64-string component
of `LoRaWAN.build_downlink`. -/
theorem c10_duplicated_crypto_agree (aes cmac : List Nat → List Nat → List Nat)
    (key dev_addr data msg nwk app payload : List Nat)
    (fcnt direction fport : Nat) (confirmed : Bool) :
    Helpers.lorawan_encrypt aes key dev_addr fcnt direction data =
      LoRaWANM.encrypt aes key dev_addr fcnt direction data ∧
    Helpers.lorawan_mic cmac key dev_addr fcnt direction msg =
      LoRaWANM.mic cmac key dev_addr fcnt direction msg ∧
    Helpers.build_lorawan_downlink aes cmac dev_addr nwk app payload fcnt fport
        confirmed =
      (LoRaWANM.build_downlink aes cmac dev_addr nwk app payload fcnt fport
        confirmed).map Prod.fst :=
  ⟨helpers_encrypt_eq aes key dev_addr data fcnt direction, rfl,
   helpers_build_eq aes cmac dev_addr nwk app payload fcnt fport confirmed⟩

end LktLns
